import Mathlib

/-!
Verification of the PDF-to-Word conversion core in ocr_backend.py.

The embedding models the conversion pipeline as pure functions. External
engines (PyMuPDF text extraction, pdf2image rasterization, Tesseract OCR)
are modelled as inputs: a PDF as seen through fitz is either an open
failure or a list of per-page outcomes; a rasterization is either a
failure or a list of images; the OCR engine is an explicit function
parameter. Stateful effects (the BytesIO position, whether the fitz
document handle was closed) are carried explicitly in result structures.
-/

/-- A block of the output Word document built through python-docx:
a heading added by add_heading, a paragraph added by add_paragraph, or a
page break added by add_page_break. -/
inductive Block where
  | heading (text : String)
  | para (text : String)
  | pageBreak
deriving DecidableEq, Repr

/-- The output document is the ordered list of blocks written to it. -/
abbrev Doc := List Block

/-- An in-memory bytes buffer (io.BytesIO): the serialized document
content together with the current read position. -/
structure BytesBuffer where
  data : Doc
  pos : Nat
deriving DecidableEq, Repr

/-- save_doc_to_memory: allocate a fresh buffer, save the document into it
(doc.save advances the position to the end of the written data), then
buffer.seek(0) resets the position before the buffer is returned. -/
def save_doc_to_memory (doc : Doc) : BytesBuffer :=
  let buffer : BytesBuffer := { data := [], pos := 0 }
  let buffer := { buffer with data := doc, pos := doc.length }
  { buffer with pos := 0 }

/-- Truthiness of text.strip() in python: the stripped string is nonempty
exactly when some character of the text is not whitespace. -/
def hasVisibleText (s : String) : Bool :=
  s.data.any (fun c => !c.isWhitespace)

/-- The constant placeholder used by convert_without_ocr for a page whose
extracted text strips to empty. It does not mention the page number. -/
def textPlaceholder : Nat → String :=
  fun _ => "[No text found on this page]"

/-- The placeholder used by convert_with_ocr for page index i (zero-based):
the f-string embeds the one-based page number i+1. -/
def ocrPlaceholder : Nat → String :=
  fun i => "[No text detected on page " ++ toString (i + 1) ++ "]"

/-- The shared page loop of both converters. total is the page count used
by the page-break condition. For each page in order: if the page raises,
the loop stops and the exception escapes (second component some e); else
a paragraph block is added (the text when it strips nonempty, the indexed
placeholder otherwise) followed by a page break unless this is the last
page. Returns the blocks written before any exception, and the escaping
exception if one occurred. -/
def pageLoop (ph : Nat → String) (total : Nat) :
    Nat → List (Except String String) → Doc × Option String
  | _, [] => ([], none)
  | _, Except.error e :: _ => ([], some e)
  | idx, Except.ok text :: rest =>
    let parBlock := if hasVisibleText text then Block.para text else Block.para (ph idx)
    let brk : Doc := if idx < total - 1 then [Block.pageBreak] else []
    let tail := pageLoop ph total (idx + 1) rest
    (parBlock :: brk ++ tail.1, tail.2)

/-- Result of convert_without_ocr: the returned buffer, plus the explicit
resource state of the fitz document handle: whether fitz.open succeeded
(opened) and whether pdf_document.close() was executed (closed). -/
structure TextConvResult where
  buffer : BytesBuffer
  opened : Bool
  closed : Bool
deriving DecidableEq, Repr

/-- convert_without_ocr: add the heading, then inside try open the PDF
(modelled as the given Except value), loop over its pages extracting text
per page; close() runs only after the loop completes. Any exception from
open or from a page is caught once, appending a single error paragraph.
The document is always serialized and returned. -/
def convert_without_ocr (pdf : Except String (List (Except String String))) :
    TextConvResult :=
  let headingBlock := Block.heading "Converted Document (Text Extraction)"
  match pdf with
  | Except.error e =>
    { buffer := save_doc_to_memory [headingBlock, Block.para ("Error processing PDF: " ++ e)],
      opened := false, closed := false }
  | Except.ok pages =>
    let r := pageLoop textPlaceholder pages.length 0 pages
    let body := match r.2 with
      | none => r.1
      | some e => r.1 ++ [Block.para ("Error processing PDF: " ++ e)]
    { buffer := save_doc_to_memory (headingBlock :: body),
      opened := true, closed := r.2.isNone }

/-- A rasterized page image: its PIL color mode and opaque pixel content. -/
structure Image where
  mode : String
  content : Nat
deriving DecidableEq, Repr

/-- The grayscale normalization in convert_with_ocr: image.convert to mode
L when the mode is not already L. -/
def toGrayscale (img : Image) : Image :=
  if img.mode ≠ "L" then { img with mode := "L" } else img

/-- convert_with_ocr: add the heading, then inside try rasterize the PDF
(modelled as the given Except value) and loop over the images, converting
each to grayscale and running the OCR engine (an explicit function that
may itself raise). Any exception is caught once, appending a single error
paragraph. The document is always serialized and returned. -/
def convert_with_ocr (engine : Image → Except String String)
    (raster : Except String (List Image)) : BytesBuffer :=
  let headingBlock := Block.heading "Converted Document (OCR)"
  match raster with
  | Except.error e =>
    save_doc_to_memory [headingBlock, Block.para ("Error during OCR processing: " ++ e)]
  | Except.ok images =>
    let outcomes := images.map (fun img => engine (toGrayscale img))
    let r := pageLoop ocrPlaceholder images.length 0 outcomes
    let body := match r.2 with
      | none => r.1
      | some e => r.1 ++ [Block.para ("Error during OCR processing: " ++ e)]
    save_doc_to_memory (headingBlock :: body)

/-- mode as read by the endpoint: request.form.get with default no_ocr. -/
def getMode (form : Option String) : String :=
  form.getD "no_ocr"

/-- Response of the conversion endpoint: a file attachment with a
suggested download name, or a JSON error with an HTTP status code. -/
inductive HttpResponse where
  | fileAttachment (buffer : BytesBuffer) (filename : String)
  | errorJson (message : String) (code : Nat)
deriving DecidableEq, Repr

/-- The core dispatch of the convert-pdf-to-word endpoint, after the
boundary checks on the uploaded file: mode == ocr runs convert_with_ocr
with filename converted_ocr.docx, any other mode runs convert_without_ocr
with filename converted_text.docx; the buffer is sent as an attachment.
textView and ocrView are the PDF bytes as seen through the respective
page-source engines. -/
def convert_pdf_to_word (mode : String)
    (engine : Image → Except String String)
    (textView : Except String (List (Except String String)))
    (ocrView : Except String (List Image)) : HttpResponse :=
  if mode = "ocr" then
    HttpResponse.fileAttachment (convert_with_ocr engine ocrView) "converted_ocr.docx"
  else
    HttpResponse.fileAttachment (convert_without_ocr textView).buffer "converted_text.docx"

/-- Number of paragraph blocks in a document. -/
def countParas : Doc → Nat
  | [] => 0
  | Block.heading _ :: rest => countParas rest
  | Block.para _ :: rest => countParas rest + 1
  | Block.pageBreak :: rest => countParas rest

/-- Number of page-break markers in a document. -/
def countBreaks : Doc → Nat
  | [] => 0
  | Block.heading _ :: rest => countBreaks rest
  | Block.para _ :: rest => countBreaks rest
  | Block.pageBreak :: rest => countBreaks rest + 1

/-- The paragraph texts of a document, in order. -/
def parasOf : Doc → List String
  | [] => []
  | Block.heading _ :: rest => parasOf rest
  | Block.para t :: rest => t :: parasOf rest
  | Block.pageBreak :: rest => parasOf rest

/-- The paragraph texts the loop is expected to emit for a list of page
texts starting at a given index: each page contributes its text when it
strips nonempty, and the indexed placeholder otherwise. -/
def expectedParas (ph : Nat → String) : Nat → List String → List String
  | _, [] => []
  | idx, t :: rest => (if hasVisibleText t then t else ph idx) :: expectedParas ph (idx + 1) rest

/-! Helper lemmas about the block counters and the page loop. -/

lemma parasOf_append (a b : Doc) : parasOf (a ++ b) = parasOf a ++ parasOf b := by
  induction a with
  | nil => rfl
  | cons blk rest ih => cases blk <;> simp [parasOf, ih]

lemma countParas_eq_length_parasOf (d : Doc) : countParas d = (parasOf d).length := by
  induction d with
  | nil => rfl
  | cons blk rest ih => cases blk <;> simp [parasOf, countParas, ih]

lemma countBreaks_append (a b : Doc) :
    countBreaks (a ++ b) = countBreaks a + countBreaks b := by
  induction a with
  | nil => simp [countBreaks]
  | cons blk rest ih => cases blk <;> simp [countBreaks, ih] <;> omega

lemma expectedParas_length (ph : Nat → String) (l : List String) :
    ∀ idx, (expectedParas ph idx l).length = l.length := by
  induction l with
  | nil => intro idx; rfl
  | cons t rest ih => intro idx; simp [expectedParas, ih]

lemma expectedParas_get (ph : Nat → String) (l : List String) :
    ∀ idx i, (expectedParas ph idx l).get? i
      = (l.get? i).map (fun t => if hasVisibleText t then t else ph (idx + i)) := by
  induction l with
  | nil => intro idx i; simp [expectedParas]
  | cons t rest ih =>
    intro idx i
    cases i with
    | zero => simp [expectedParas]
    | succ j =>
      have h : idx + 1 + j = idx + (j + 1) := by omega
      have hj := ih (idx + 1) j
      rw [h] at hj
      simpa [expectedParas] using hj

lemma pageLoop_cons_ok (ph : Nat → String) (total idx : Nat) (t : String)
    (rest : List (Except String String)) :
    pageLoop ph total idx (Except.ok t :: rest)
      = ((if hasVisibleText t then Block.para t else Block.para (ph idx)) ::
          ((if idx < total - 1 then [Block.pageBreak] else []) ++
            (pageLoop ph total (idx + 1) rest).1),
         (pageLoop ph total (idx + 1) rest).2) := rfl

lemma pageLoop_ok_snd (ph : Nat → String) (l : List String) :
    ∀ idx total, (pageLoop ph total idx (l.map Except.ok)).2 = none := by
  induction l with
  | nil => intro idx total; rfl
  | cons t rest ih => intro idx total; simp [pageLoop, ih]

lemma pageLoop_ok_paras (ph : Nat → String) (l : List String) :
    ∀ idx total, parasOf (pageLoop ph total idx (l.map Except.ok)).1
      = expectedParas ph idx l := by
  induction l with
  | nil => intro idx total; rfl
  | cons t rest ih =>
    intro idx total
    by_cases hv : hasVisibleText t <;>
      by_cases hb : idx < total - 1 <;>
        simp [pageLoop, expectedParas, parasOf, parasOf_append, hv, hb, ih]

lemma pageLoop_ok_breaks (ph : Nat → String) :
    ∀ (l : List String) (idx total : Nat), idx + l.length = total →
      countBreaks (pageLoop ph total idx (l.map Except.ok)).1 = l.length - 1
  | [], idx, total, _ => by rfl
  | [t], idx, total, h => by
    have h1 : idx + 1 = total := by simpa using h
    have hb : ¬ idx < total - 1 := by omega
    by_cases hv : hasVisibleText t <;>
      simp [pageLoop, countBreaks, hv, hb]
  | t :: t2 :: rest, idx, total, h => by
    have h1 := h
    simp only [List.length_cons] at h1
    have ih := pageLoop_ok_breaks ph (t2 :: rest) (idx + 1) total (by
      simp only [List.length_cons]
      omega)
    have hb : idx < total - 1 := by omega
    rw [List.map_cons, pageLoop_cons_ok]
    simp only [List.length_cons, List.map_cons, Nat.add_sub_cancel] at ih ⊢
    by_cases hv : hasVisibleText t
    · simp [hv, hb, countBreaks, countBreaks_append, ih]
    · simp [hv, hb, countBreaks, countBreaks_append, ih]

lemma pageLoop_ok_blocks (ph : Nat → String) :
    ∀ (l : List String) (idx total : Nat), idx + l.length = total →
      (pageLoop ph total idx (l.map Except.ok)).1
        = List.intersperse Block.pageBreak ((expectedParas ph idx l).map Block.para)
  | [], _, _, _ => rfl
  | [t], idx, total, h => by
    have h1 : idx + 1 = total := by simpa using h
    have hb : ¬ idx < total - 1 := by omega
    by_cases hv : hasVisibleText t <;>
      simp [pageLoop, expectedParas, List.intersperse, hv, hb]
  | t :: t2 :: rest, idx, total, h => by
    have h1 := h
    simp only [List.length_cons] at h1
    have ih := pageLoop_ok_blocks ph (t2 :: rest) (idx + 1) total (by
      simp only [List.length_cons]
      omega)
    have hb : idx < total - 1 := by omega
    rw [List.map_cons, pageLoop_cons_ok, if_pos hb, ih]
    by_cases hv : hasVisibleText t
    · simp [expectedParas, hv, List.intersperse]
    · simp [expectedParas, hv, List.intersperse]

lemma pageLoop_err_snd_count (ph : Nat → String) (total : Nat) :
    ∀ (pre : List (Except String String)), (∀ p ∈ pre, p.isOk = true) →
      ∀ (idx : Nat) (e : String) (post : List (Except String String)),
        (pageLoop ph total idx (pre ++ Except.error e :: post)).2 = some e ∧
        countParas (pageLoop ph total idx (pre ++ Except.error e :: post)).1 = pre.length := by
  intro pre
  induction pre with
  | nil => intro _ idx e post; simp [pageLoop, countParas]
  | cons p rest ih =>
    intro hok idx e post
    have hp : p.isOk = true := hok p (List.mem_cons_self p rest)
    have hrest : ∀ q ∈ rest, q.isOk = true := fun q hq => hok q (List.mem_cons_of_mem p hq)
    cases p with
    | error msg => simp [Except.isOk, Except.toBool] at hp
    | ok t =>
      have ihr := ih hrest (idx + 1) e post
      by_cases hv : hasVisibleText t <;>
        by_cases hb : idx < total - 1 <;>
          simp [pageLoop, countParas, hv, hb, ihr.1, ihr.2]

lemma pageLoop_err_paras (ph : Nat → String) (total : Nat) :
    ∀ (pre : List String) (idx : Nat) (e : String) (post : List (Except String String)),
      (pageLoop ph total idx (pre.map Except.ok ++ Except.error e :: post)).2 = some e ∧
      parasOf (pageLoop ph total idx (pre.map Except.ok ++ Except.error e :: post)).1
        = expectedParas ph idx pre := by
  intro pre
  induction pre with
  | nil => intro idx e post; simp [pageLoop, parasOf, expectedParas]
  | cons t rest ih =>
    intro idx e post
    have ihr := ih (idx + 1) e post
    by_cases hv : hasVisibleText t <;>
      by_cases hb : idx < total - 1 <;>
        simp [pageLoop, parasOf, parasOf_append, expectedParas, hv, hb, ihr.1, ihr.2]

lemma countParas_append (a b : Doc) :
    countParas (a ++ b) = countParas a + countParas b := by
  induction a with
  | nil => simp [countParas]
  | cons blk rest ih => cases blk <;> simp [countParas, ih] <;> omega

/-! Bridge lemmas unfolding the converters on each kind of input. -/

lemma convert_text_data_of_snd_none (pages : List (Except String String))
    (h : (pageLoop textPlaceholder pages.length 0 pages).2 = none) :
    (convert_without_ocr (Except.ok pages)).buffer.data
      = Block.heading "Converted Document (Text Extraction)"
        :: (pageLoop textPlaceholder pages.length 0 pages).1 := by
  simp [convert_without_ocr, save_doc_to_memory, h]

lemma convert_text_data_of_snd_some (pages : List (Except String String)) (e : String)
    (h : (pageLoop textPlaceholder pages.length 0 pages).2 = some e) :
    (convert_without_ocr (Except.ok pages)).buffer.data
      = Block.heading "Converted Document (Text Extraction)"
        :: (pageLoop textPlaceholder pages.length 0 pages).1
        ++ [Block.para ("Error processing PDF: " ++ e)] := by
  simp [convert_without_ocr, save_doc_to_memory, h]

lemma convert_ocr_data_of_snd_none (engine : Image → Except String String)
    (images : List Image)
    (h : (pageLoop ocrPlaceholder images.length 0
        (images.map fun img => engine (toGrayscale img))).2 = none) :
    (convert_with_ocr engine (Except.ok images)).data
      = Block.heading "Converted Document (OCR)"
        :: (pageLoop ocrPlaceholder images.length 0
             (images.map fun img => engine (toGrayscale img))).1 := by
  simp [convert_with_ocr, save_doc_to_memory, h]

lemma convert_ocr_data_of_snd_some (engine : Image → Except String String)
    (images : List Image) (e : String)
    (h : (pageLoop ocrPlaceholder images.length 0
        (images.map fun img => engine (toGrayscale img))).2 = some e) :
    (convert_with_ocr engine (Except.ok images)).data
      = Block.heading "Converted Document (OCR)"
        :: (pageLoop ocrPlaceholder images.length 0
             (images.map fun img => engine (toGrayscale img))).1
        ++ [Block.para ("Error during OCR processing: " ++ e)] := by
  simp [convert_with_ocr, save_doc_to_memory, h]

lemma always_ok_engine_outcomes (recog : Image → String) (images : List Image) :
    (images.map fun img => (fun i => Except.ok (recog i) : Image → Except String String)
        (toGrayscale img))
      = (images.map fun img => recog (toGrayscale img)).map Except.ok := by
  simp [List.map_map, Function.comp]

lemma text_mode_para_get (pages : List String) (i : Nat) :
    (parasOf (convert_without_ocr (Except.ok (pages.map Except.ok))).buffer.data).get? i
      = (pages.get? i).map
          (fun t => if hasVisibleText t then t else "[No text found on this page]") := by
  have hsnd := pageLoop_ok_snd textPlaceholder pages 0
    (pages.map Except.ok : List (Except String String)).length
  rw [convert_text_data_of_snd_none (pages.map Except.ok) hsnd]
  have hparas := pageLoop_ok_paras textPlaceholder pages 0
    (pages.map Except.ok : List (Except String String)).length
  simp only [parasOf, hparas, expectedParas_get, Nat.zero_add]
  rfl

lemma ocr_mode_para_get (recog : Image → String) (images : List Image) (j : Nat) :
    (parasOf (convert_with_ocr (fun img => Except.ok (recog img)) (Except.ok images)).data).get? j
      = (images.get? j).map (fun img =>
          if hasVisibleText (recog (toGrayscale img)) then recog (toGrayscale img)
          else "[No text detected on page " ++ toString (j + 1) ++ "]") := by
  have hout := always_ok_engine_outcomes recog images
  have hsnd : (pageLoop ocrPlaceholder images.length 0
      (images.map fun img => (fun i => Except.ok (recog i) : Image → Except String String)
        (toGrayscale img))).2 = none := by
    rw [hout]
    exact pageLoop_ok_snd ocrPlaceholder _ 0 images.length
  rw [convert_ocr_data_of_snd_none _ images hsnd]
  have hparas : parasOf (pageLoop ocrPlaceholder images.length 0
      (images.map fun img => (fun i => Except.ok (recog i) : Image → Except String String)
        (toGrayscale img))).1
      = expectedParas ocrPlaceholder 0 (images.map fun img => recog (toGrayscale img)) := by
    rw [hout]
    exact pageLoop_ok_paras ocrPlaceholder _ 0 images.length
  simp only [parasOf, hparas, expectedParas_get, Nat.zero_add, List.get?_map]
  cases images.get? j <;> simp [ocrPlaceholder]

/-! Claim theorems. -/

/-- C1 counterexample: a 3-page PDF whose second page raises during text
extraction. The code catches the exception outside the loop, so the third
page is never processed: the output has only 2 paragraphs (the first page
text and the error paragraph) instead of one paragraph per input page. -/
theorem failing_page_truncates_output :
    parasOf (convert_without_ocr (Except.ok
        [Except.ok "alpha", Except.error "boom", Except.ok "gamma"])).buffer.data
      = ["alpha", "Error processing PDF: boom"] ∧
    countParas (convert_without_ocr (Except.ok
        [Except.ok "alpha", Except.error "boom", Except.ok "gamma"])).buffer.data
      ≠ ([Except.ok "alpha", Except.error "boom", Except.ok "gamma"]
          : List (Except String String)).length := by
  decide

/-- C1 (amended): in both modes an exception on one page aborts the page
loop. The pages before the failing page yield their paragraph blocks, one
error paragraph carrying the exception message is appended, and the pages
after the failing page yield nothing, so the paragraph count is the number
of pages before the failure plus one, not the input page count. -/
theorem page_exception_aborts_remaining_pages
    (pre : List String) (e : String) (post : List (Except String String))
    (engine : Image → Except String String)
    (preImgs : List Image) (bad : Image) (postImgs : List Image)
    (hpre : ∀ img ∈ preImgs, (engine (toGrayscale img)).isOk = true)
    (hbad : engine (toGrayscale bad) = Except.error e) :
    parasOf (convert_without_ocr (Except.ok
        (pre.map Except.ok ++ Except.error e :: post))).buffer.data
      = expectedParas textPlaceholder 0 pre ++ ["Error processing PDF: " ++ e] ∧
    countParas (convert_without_ocr (Except.ok
        (pre.map Except.ok ++ Except.error e :: post))).buffer.data
      = pre.length + 1 ∧
    countParas (convert_with_ocr engine (Except.ok (preImgs ++ bad :: postImgs))).data
      = preImgs.length + 1 := by
  have herr := pageLoop_err_paras textPlaceholder
    (pre.map Except.ok ++ Except.error e :: post : List (Except String String)).length
    pre 0 e post
  have hdata := convert_text_data_of_snd_some _ e herr.1
  have hparas : parasOf (convert_without_ocr (Except.ok
      (pre.map Except.ok ++ Except.error e :: post))).buffer.data
      = expectedParas textPlaceholder 0 pre ++ ["Error processing PDF: " ++ e] := by
    rw [hdata]
    simp only [parasOf, List.append_eq, parasOf_append]
    rw [herr.2]
  refine ⟨hparas, ?_, ?_⟩
  · rw [countParas_eq_length_parasOf, hparas]
    simp [expectedParas_length]
  · have hsplit : (preImgs ++ bad :: postImgs).map (fun img => engine (toGrayscale img))
        = preImgs.map (fun img => engine (toGrayscale img))
          ++ Except.error e :: postImgs.map (fun img => engine (toGrayscale img)) := by
      simp [hbad]
    have hok : ∀ p ∈ preImgs.map (fun img => engine (toGrayscale img)), p.isOk = true := by
      intro p hp
      rcases List.mem_map.mp hp with ⟨img, hmem, himg⟩
      rw [← himg]
      exact hpre img hmem
    have herr2 := pageLoop_err_snd_count ocrPlaceholder (preImgs ++ bad :: postImgs).length
      (preImgs.map (fun img => engine (toGrayscale img))) hok 0 e
      (postImgs.map (fun img => engine (toGrayscale img)))
    have hsnd : (pageLoop ocrPlaceholder (preImgs ++ bad :: postImgs).length 0
        ((preImgs ++ bad :: postImgs).map fun img => engine (toGrayscale img))).2
        = some e := by
      rw [hsplit]
      exact herr2.1
    have hcount : countParas (pageLoop ocrPlaceholder (preImgs ++ bad :: postImgs).length 0
        ((preImgs ++ bad :: postImgs).map fun img => engine (toGrayscale img))).1
        = preImgs.length := by
      rw [hsplit, herr2.2, List.length_map]
    rw [convert_ocr_data_of_snd_some engine _ e hsnd]
    simp only [countParas, List.append_eq, countParas_append]
    rw [hcount]

/-- Witness for C1: the amended theorem applied at a concrete 3-page input
failing on the middle page in each mode. -/
def witnessEngine : Image → Except String String :=
  fun img => if img.content = 7 then Except.error "boom" else Except.ok "seen"

theorem page_exception_aborts_remaining_pages_witness :
    parasOf (convert_without_ocr (Except.ok
        (["alpha"].map Except.ok ++ Except.error "boom" :: [Except.ok "gamma"]))).buffer.data
      = expectedParas textPlaceholder 0 ["alpha"] ++ ["Error processing PDF: " ++ "boom"] ∧
    countParas (convert_without_ocr (Except.ok
        (["alpha"].map Except.ok ++ Except.error "boom" :: [Except.ok "gamma"]))).buffer.data
      = ["alpha"].length + 1 ∧
    countParas (convert_with_ocr witnessEngine (Except.ok
        ([Image.mk "RGB" 1] ++ Image.mk "RGB" 7 :: [Image.mk "RGB" 9]))).data
      = [Image.mk "RGB" 1].length + 1 :=
  page_exception_aborts_remaining_pages ["alpha"] "boom" [Except.ok "gamma"]
    witnessEngine [Image.mk "RGB" 1] (Image.mk "RGB" 7) [Image.mk "RGB" 9]
    (by decide) rfl

/-- C2 counterexample: for bytes that cannot be opened as a PDF the
endpoint still returns a file attachment whose document holds the heading
and an error paragraph: a serialized output document is produced, no
failure is reported. -/
theorem open_failure_still_returns_attachment :
    convert_pdf_to_word "no_ocr" (fun _ => Except.ok "")
        (Except.error "cannot open broken file") (Except.ok [])
      = HttpResponse.fileAttachment
          { data := [Block.heading "Converted Document (Text Extraction)",
                     Block.para "Error processing PDF: cannot open broken file"],
            pos := 0 }
          "converted_text.docx" := by
  decide

/-- C2 (amended): a whole-job failure (open or rasterization error) is
swallowed by the converter, which returns a document containing only the
heading and one error paragraph; the endpoint sends that buffer to the
caller as a normal file attachment instead of reporting a failure. -/
theorem whole_job_failure_yields_error_document (e : String)
    (engine : Image → Except String String)
    (tv : Except String (List (Except String String)))
    (ov : Except String (List Image)) :
    convert_pdf_to_word "no_ocr" engine (Except.error e) ov
      = HttpResponse.fileAttachment
          { data := [Block.heading "Converted Document (Text Extraction)",
                     Block.para ("Error processing PDF: " ++ e)], pos := 0 }
          "converted_text.docx" ∧
    convert_pdf_to_word "ocr" engine tv (Except.error e)
      = HttpResponse.fileAttachment
          { data := [Block.heading "Converted Document (OCR)",
                     Block.para ("Error during OCR processing: " ++ e)], pos := 0 }
          "converted_ocr.docx" :=
  ⟨rfl, rfl⟩

/-- C3: for a valid N-page PDF (open succeeds, every page yields text, the
OCR engine succeeds on every image) each mode emits exactly N paragraph
blocks, one per input page in input order (captured by the parasOf
equations), and N-1 page breaks. The final two conjuncts pin the exact
block layout: the whole document is the heading followed by the page
paragraph blocks with one page-break marker interspersed between each
pair of consecutive page blocks and none after the last. -/
theorem valid_pdf_block_counts (pages : List String) (hN : 1 ≤ pages.length)
    (recog : Image → String) (images : List Image) (hM : 1 ≤ images.length) :
    countParas (convert_without_ocr (Except.ok (pages.map Except.ok))).buffer.data
      = pages.length ∧
    countBreaks (convert_without_ocr (Except.ok (pages.map Except.ok))).buffer.data
      = pages.length - 1 ∧
    parasOf (convert_without_ocr (Except.ok (pages.map Except.ok))).buffer.data
      = expectedParas textPlaceholder 0 pages ∧
    countParas (convert_with_ocr (fun img => Except.ok (recog img)) (Except.ok images)).data
      = images.length ∧
    countBreaks (convert_with_ocr (fun img => Except.ok (recog img)) (Except.ok images)).data
      = images.length - 1 ∧
    parasOf (convert_with_ocr (fun img => Except.ok (recog img)) (Except.ok images)).data
      = expectedParas ocrPlaceholder 0 (images.map fun img => recog (toGrayscale img)) ∧
    (convert_without_ocr (Except.ok (pages.map Except.ok))).buffer.data
      = Block.heading "Converted Document (Text Extraction)"
        :: List.intersperse Block.pageBreak
             ((expectedParas textPlaceholder 0 pages).map Block.para) ∧
    (convert_with_ocr (fun img => Except.ok (recog img)) (Except.ok images)).data
      = Block.heading "Converted Document (OCR)"
        :: List.intersperse Block.pageBreak
             ((expectedParas ocrPlaceholder 0
                (images.map fun img => recog (toGrayscale img))).map Block.para) := by
  have hsnd := pageLoop_ok_snd textPlaceholder pages 0
    (pages.map Except.ok : List (Except String String)).length
  have hdata := convert_text_data_of_snd_none (pages.map Except.ok) hsnd
  have hp1 : parasOf (convert_without_ocr (Except.ok (pages.map Except.ok))).buffer.data
      = expectedParas textPlaceholder 0 pages := by
    rw [hdata]
    simp only [parasOf]
    exact pageLoop_ok_paras textPlaceholder pages 0 _
  have hb1 : countBreaks (convert_without_ocr (Except.ok (pages.map Except.ok))).buffer.data
      = pages.length - 1 := by
    rw [hdata]
    simp only [countBreaks]
    exact pageLoop_ok_breaks textPlaceholder pages 0 _ (by simp)
  have hout := always_ok_engine_outcomes recog images
  have hsndO : (pageLoop ocrPlaceholder images.length 0
      (images.map fun img => (fun i => Except.ok (recog i) : Image → Except String String)
        (toGrayscale img))).2 = none := by
    rw [hout]
    exact pageLoop_ok_snd ocrPlaceholder _ 0 images.length
  have hdataO := convert_ocr_data_of_snd_none
    (fun i => Except.ok (recog i) : Image → Except String String) images hsndO
  have hp2 : parasOf (convert_with_ocr (fun img => Except.ok (recog img))
        (Except.ok images)).data
      = expectedParas ocrPlaceholder 0 (images.map fun img => recog (toGrayscale img)) := by
    rw [hdataO]
    simp only [parasOf]
    rw [hout]
    exact pageLoop_ok_paras ocrPlaceholder _ 0 images.length
  have hb2 : countBreaks (convert_with_ocr (fun img => Except.ok (recog img))
        (Except.ok images)).data
      = images.length - 1 := by
    rw [hdataO]
    simp only [countBreaks]
    rw [hout]
    have hbr := pageLoop_ok_breaks ocrPlaceholder
      (images.map fun img => recog (toGrayscale img)) 0 images.length (by simp)
    rw [List.length_map] at hbr
    exact hbr
  have hlay1 : (convert_without_ocr (Except.ok (pages.map Except.ok))).buffer.data
      = Block.heading "Converted Document (Text Extraction)"
        :: List.intersperse Block.pageBreak
             ((expectedParas textPlaceholder 0 pages).map Block.para) := by
    rw [hdata, pageLoop_ok_blocks textPlaceholder pages 0 _ (by simp)]
  have hlay2 : (convert_with_ocr (fun img => Except.ok (recog img)) (Except.ok images)).data
      = Block.heading "Converted Document (OCR)"
        :: List.intersperse Block.pageBreak
             ((expectedParas ocrPlaceholder 0
                (images.map fun img => recog (toGrayscale img))).map Block.para) := by
    rw [hdataO]
    rw [show (pageLoop ocrPlaceholder images.length 0
        (images.map fun img => (fun i => Except.ok (recog i) : Image → Except String String)
          (toGrayscale img))).1
      = List.intersperse Block.pageBreak
          ((expectedParas ocrPlaceholder 0
            (images.map fun img => recog (toGrayscale img))).map Block.para) from by
      rw [hout]
      exact pageLoop_ok_blocks ocrPlaceholder _ 0 images.length (by simp)]
  refine ⟨?_, hb1, hp1, ?_, hb2, hp2, hlay1, hlay2⟩
  · rw [countParas_eq_length_parasOf, hp1, expectedParas_length]
  · rw [countParas_eq_length_parasOf, hp2, expectedParas_length, List.length_map]

/-- Witness for C3: a one-page PDF in each mode. -/
theorem valid_pdf_block_counts_witness :
    1 ≤ (["Hello World"] : List String).length ∧
    1 ≤ ([Image.mk "RGB" 0] : List Image).length ∧
    (countParas (convert_without_ocr (Except.ok
        (["Hello World"].map Except.ok))).buffer.data = ["Hello World"].length ∧
     countBreaks (convert_without_ocr (Except.ok
        (["Hello World"].map Except.ok))).buffer.data = ["Hello World"].length - 1 ∧
     parasOf (convert_without_ocr (Except.ok
        (["Hello World"].map Except.ok))).buffer.data
       = expectedParas textPlaceholder 0 ["Hello World"] ∧
     countParas (convert_with_ocr (fun img => Except.ok ((fun _ => "Scanned") img))
        (Except.ok [Image.mk "RGB" 0])).data = [Image.mk "RGB" 0].length ∧
     countBreaks (convert_with_ocr (fun img => Except.ok ((fun _ => "Scanned") img))
        (Except.ok [Image.mk "RGB" 0])).data = [Image.mk "RGB" 0].length - 1 ∧
     parasOf (convert_with_ocr (fun img => Except.ok ((fun _ => "Scanned") img))
        (Except.ok [Image.mk "RGB" 0])).data
       = expectedParas ocrPlaceholder 0
           ([Image.mk "RGB" 0].map fun img => (fun _ => "Scanned") (toGrayscale img)) ∧
     (convert_without_ocr (Except.ok
        (["Hello World"].map Except.ok))).buffer.data
       = Block.heading "Converted Document (Text Extraction)"
         :: List.intersperse Block.pageBreak
              ((expectedParas textPlaceholder 0 ["Hello World"]).map Block.para) ∧
     (convert_with_ocr (fun img => Except.ok ((fun _ => "Scanned") img))
        (Except.ok [Image.mk "RGB" 0])).data
       = Block.heading "Converted Document (OCR)"
         :: List.intersperse Block.pageBreak
              ((expectedParas ocrPlaceholder 0
                 ([Image.mk "RGB" 0].map fun img =>
                   (fun _ => "Scanned") (toGrayscale img))).map Block.para)) :=
  ⟨by decide, by decide,
   valid_pdf_block_counts ["Hello World"] (by decide)
     (fun _ => "Scanned") [Image.mk "RGB" 0] (by decide)⟩

/-- C4 counterexample: a 3-page text-extraction run whose second page is
whitespace only. The emitted placeholder is the fixed string, which holds
no digit at all, so it cannot reference page 2. -/
theorem text_mode_placeholder_lacks_page_number :
    (parasOf (convert_without_ocr (Except.ok
        [Except.ok "alpha", Except.ok "   ", Except.ok "beta"])).buffer.data).get? 1
      = some "[No text found on this page]" ∧
    ("[No text found on this page]".data.any (fun c => c.isDigit)) = false := by
  decide

/-- C4 (amended): a page whose text strips to empty yields a placeholder
paragraph in both modes, but only the OCR placeholder references the
one-based page number; the text-extraction placeholder is the same fixed
string for every page and carries no page index. -/
theorem empty_page_placeholder_forms
    (pages : List String) (i : Nat) (h : i < pages.length)
    (hempty : hasVisibleText (pages.get ⟨i, h⟩) = false)
    (recog : Image → String) (images : List Image) (j : Nat) (hj : j < images.length)
    (hemptyO : hasVisibleText (recog (toGrayscale (images.get ⟨j, hj⟩))) = false) :
    (parasOf (convert_without_ocr (Except.ok (pages.map Except.ok))).buffer.data).get? i
      = some "[No text found on this page]" ∧
    (parasOf (convert_with_ocr (fun img => Except.ok (recog img)) (Except.ok images)).data).get? j
      = some ("[No text detected on page " ++ toString (j + 1) ++ "]") := by
  constructor
  · rw [text_mode_para_get, List.get?_eq_get h]
    simp only [List.get_eq_getElem] at hempty
    simp [hempty]
  · rw [ocr_mode_para_get, List.get?_eq_get hj]
    simp only [List.get_eq_getElem] at hemptyO
    simp [hemptyO]

/-- Witness for C4 (amended): a whitespace page at index 1 in text mode
and a blank recognition at index 0 in OCR mode. -/
theorem empty_page_placeholder_forms_witness :
    (parasOf (convert_without_ocr (Except.ok
        (["x", "   "].map Except.ok))).buffer.data).get? 1
      = some "[No text found on this page]" ∧
    (parasOf (convert_with_ocr (fun img => Except.ok ((fun _ => " ") img))
        (Except.ok [Image.mk "RGB" 5])).data).get? 0
      = some ("[No text detected on page " ++ toString (0 + 1) ++ "]") :=
  empty_page_placeholder_forms ["x", "   "] 1 (by decide) (by decide)
    (fun _ => " ") [Image.mk "RGB" 5] 0 (by decide) (by decide)

/-- C5: in both modes, a page whose text is only whitespace yields the
EMPTY placeholder, never the blank text, and a page whose stripped text is
nonempty yields exactly that text. -/
theorem whitespace_page_yields_placeholder
    (pages : List String) (i : Nat) (h : i < pages.length)
    (recog : Image → String) (images : List Image) (j : Nat) (hj : j < images.length) :
    (parasOf (convert_without_ocr (Except.ok (pages.map Except.ok))).buffer.data).get? i
      = some (if hasVisibleText (pages.get ⟨i, h⟩) then pages.get ⟨i, h⟩
          else "[No text found on this page]") ∧
    (parasOf (convert_with_ocr (fun img => Except.ok (recog img)) (Except.ok images)).data).get? j
      = some (if hasVisibleText (recog (toGrayscale (images.get ⟨j, hj⟩)))
          then recog (toGrayscale (images.get ⟨j, hj⟩))
          else "[No text detected on page " ++ toString (j + 1) ++ "]") := by
  constructor
  · rw [text_mode_para_get, List.get?_eq_get h]
    rfl
  · rw [ocr_mode_para_get, List.get?_eq_get hj]
    rfl

/-- Witness for C5: a whitespace-only page and a text page. -/
theorem whitespace_page_yields_placeholder_witness :
    (parasOf (convert_without_ocr (Except.ok
        (["  ", "hello"].map Except.ok))).buffer.data).get? 0
      = some (if hasVisibleText (["  ", "hello"].get ⟨0, by decide⟩)
          then ["  ", "hello"].get ⟨0, by decide⟩
          else "[No text found on this page]") ∧
    (parasOf (convert_with_ocr (fun img => Except.ok ((fun _ => "world") img))
        (Except.ok [Image.mk "L" 2])).data).get? 0
      = some (if hasVisibleText ((fun _ => "world")
            (toGrayscale ([Image.mk "L" 2].get ⟨0, by decide⟩)))
          then (fun _ => "world") (toGrayscale ([Image.mk "L" 2].get ⟨0, by decide⟩))
          else "[No text detected on page " ++ toString (0 + 1) ++ "]") :=
  whitespace_page_yields_placeholder ["  ", "hello"] 0 (by decide)
    (fun _ => "world") [Image.mk "L" 2] 0 (by decide)

/-- C6: the endpoint routes to the OCR converter exactly when the mode
form value (defaulting to no_ocr when absent) equals ocr; no_ocr, the
empty string and an absent field all route to text extraction, and the
two suggested filenames differ. -/
theorem mode_dispatch_ocr_iff (form : Option String)
    (engine : Image → Except String String)
    (tv : Except String (List (Except String String)))
    (ov : Except String (List Image)) :
    (convert_pdf_to_word (getMode form) engine tv ov
        = HttpResponse.fileAttachment (convert_with_ocr engine ov) "converted_ocr.docx"
      ↔ getMode form = "ocr") ∧
    (convert_pdf_to_word (getMode form) engine tv ov
        = HttpResponse.fileAttachment (convert_without_ocr tv).buffer "converted_text.docx"
      ↔ ¬ getMode form = "ocr") ∧
    ¬ getMode (some "no_ocr") = "ocr" ∧
    ¬ getMode (some "") = "ocr" ∧
    ¬ getMode none = "ocr" ∧
    ¬ ("converted_ocr.docx" : String) = "converted_text.docx" := by
  have hne : ∀ (b1 b2 : BytesBuffer),
      HttpResponse.fileAttachment b1 "converted_text.docx"
        ≠ HttpResponse.fileAttachment b2 "converted_ocr.docx" := by
    intro b1 b2 hcontra
    injection hcontra with h1 h2
    exact absurd h2 (by decide)
  refine ⟨?_, ?_, by decide, by decide, by decide, by decide⟩
  · by_cases hm : getMode form = "ocr"
    · simp [convert_pdf_to_word, hm]
    · simp only [convert_pdf_to_word, if_neg hm]
      exact ⟨fun hcontra => absurd hcontra (hne _ _), fun hcontra => absurd hcontra hm⟩
  · by_cases hm : getMode form = "ocr"
    · simp only [convert_pdf_to_word, if_pos hm]
      exact ⟨fun hcontra => absurd hcontra.symm (hne _ _), fun hcontra => absurd hm hcontra⟩
    · simp [convert_pdf_to_word, hm]

/-- C7: with deterministic engines, running a conversion twice on the same
input in the same mode gives structurally identical output: the same
buffer, hence the same paragraph count, page-break count and paragraph
strings in the same positions. -/
theorem conversion_deterministic
    (e1 e2 : Image → Except String String) (h : ∀ img, e1 img = e2 img)
    (tv1 tv2 : Except String (List (Except String String))) (htv : tv1 = tv2)
    (ov : Except String (List Image)) :
    convert_with_ocr e1 ov = convert_with_ocr e2 ov ∧
    countParas (convert_with_ocr e1 ov).data = countParas (convert_with_ocr e2 ov).data ∧
    countBreaks (convert_with_ocr e1 ov).data = countBreaks (convert_with_ocr e2 ov).data ∧
    parasOf (convert_with_ocr e1 ov).data = parasOf (convert_with_ocr e2 ov).data ∧
    convert_without_ocr tv1 = convert_without_ocr tv2 := by
  have he : e1 = e2 := funext h
  subst he
  subst htv
  exact ⟨rfl, rfl, rfl, rfl, rfl⟩

/-- Witness for C7: two runs with the same engine on a one-image input. -/
theorem conversion_deterministic_witness :
    convert_with_ocr (fun _ => Except.ok "t") (Except.ok [Image.mk "RGB" 0])
      = convert_with_ocr (fun _ => Except.ok "t") (Except.ok [Image.mk "RGB" 0]) ∧
    countParas (convert_with_ocr (fun _ => Except.ok "t") (Except.ok [Image.mk "RGB" 0])).data
      = countParas (convert_with_ocr (fun _ => Except.ok "t") (Except.ok [Image.mk "RGB" 0])).data ∧
    countBreaks (convert_with_ocr (fun _ => Except.ok "t") (Except.ok [Image.mk "RGB" 0])).data
      = countBreaks (convert_with_ocr (fun _ => Except.ok "t") (Except.ok [Image.mk "RGB" 0])).data ∧
    parasOf (convert_with_ocr (fun _ => Except.ok "t") (Except.ok [Image.mk "RGB" 0])).data
      = parasOf (convert_with_ocr (fun _ => Except.ok "t") (Except.ok [Image.mk "RGB" 0])).data ∧
    convert_without_ocr (Except.ok [Except.ok "a"])
      = convert_without_ocr (Except.ok [Except.ok "a"]) :=
  conversion_deterministic (fun _ => Except.ok "t") (fun _ => Except.ok "t")
    (fun _ => rfl) (Except.ok [Except.ok "a"]) (Except.ok [Except.ok "a"]) rfl
    (Except.ok [Image.mk "RGB" 0])

/-- C8: the claim requires the fitz document handle to be released on
every exit path, but close() sits inside the try after the loop: at the
failing input (an openable one-page PDF whose page raises during
extraction) the handle is opened and never closed, while the clean path
does close it. -/
theorem exception_path_skips_close :
    (convert_without_ocr (Except.ok [Except.error "bad xref"])).opened = true ∧
    (convert_without_ocr (Except.ok [Except.error "bad xref"])).closed = false ∧
    (convert_without_ocr (Except.ok [Except.ok "some text"])).closed = true := by
  decide

/-- C9: both converters are total: on every input they return a serialized
buffer whose document starts with the mode-naming heading, and on a
whole-job failure the body is exactly one error paragraph carrying the
exception message. -/
theorem helpers_total_with_heading
    (tv : Except String (List (Except String String)))
    (engine : Image → Except String String)
    (ov : Except String (List Image)) (e : String) :
    (convert_without_ocr tv).buffer.data.head?
      = some (Block.heading "Converted Document (Text Extraction)") ∧
    (convert_with_ocr engine ov).data.head?
      = some (Block.heading "Converted Document (OCR)") ∧
    (convert_without_ocr (Except.error e)).buffer.data
      = [Block.heading "Converted Document (Text Extraction)",
         Block.para ("Error processing PDF: " ++ e)] ∧
    (convert_with_ocr engine (Except.error e)).data
      = [Block.heading "Converted Document (OCR)",
         Block.para ("Error during OCR processing: " ++ e)] := by
  refine ⟨?_, ?_, rfl, rfl⟩
  · cases tv with
    | error e2 => rfl
    | ok pages => rfl
  · cases ov with
    | error e2 => rfl
    | ok images => rfl

/-- C10: the serializer returns the buffer with its position reset to 0
and its data exactly the serialized document, and a zero-page PDF yields
a document with the heading, no paragraphs and no page breaks. -/
theorem buffer_position_reset_and_zero_pages (d : Doc) :
    (save_doc_to_memory d).pos = 0 ∧
    (save_doc_to_memory d).data = d ∧
    (convert_without_ocr (Except.ok [])).buffer.data
      = [Block.heading "Converted Document (Text Extraction)"] ∧
    countParas (convert_without_ocr (Except.ok [])).buffer.data = 0 ∧
    countBreaks (convert_without_ocr (Except.ok [])).buffer.data = 0 :=
  ⟨rfl, rfl, rfl, rfl, rfl⟩
